import Mathlib

/-!
Verification of the Oura MCP server (`src/server.py`) against its
specification.  The server is a facade over the Oura REST API: a date-window
calculator (`get_today_date`, `get_date_n_days_ago`), one authenticated
request helper (`make_oura_request`), and a catalog of tool operations that
call the helper with fixed endpoints and date windows.

Shallow embedding conventions:
* A local calendar instant (`datetime.now()`) is a day ordinal `now : Int`
  counting days since 1970-01-01; `timedelta(days = n)` subtraction is
  ordinal subtraction, and `strftime("%Y-%m-%d")` is civil-date conversion
  plus zero-padded formatting (`formatDate`).  The civil conversions use the
  standard days-from-civil / civil-from-days Gregorian algorithms.
* The network (`requests.get` together with its internal redirect handling)
  is an oracle `Http` mapping (url, headers, query params) to either a final
  `Response` (status, reason, parsed JSON body) or a raised
  `requests.exceptions.RequestException` carrying its string representation.
  `Response.raise_for_status` raises exactly for status codes 400–599, with
  the message format used by the requests library.
* JSON values are the inductive `Json`; Python dicts are association lists
  with unique first-match lookup.  Python operations that can raise
  (`len`, `[-1]`) are modelled in `Except String`.
-/

namespace Oura

/-! ## Date model: civil (Gregorian) calendar conversions -/

/-- Civil date (year, month, day) from a day ordinal (days since 1970-01-01),
standard Gregorian algorithm. Models the calendar arithmetic performed by
Python's `datetime`. -/
def civilFromDays (z0 : Int) : Int × Nat × Nat :=
  let z : Int := z0 + 719468
  let era : Int := z.fdiv 146097
  let doe : Nat := (z - era * 146097).toNat
  let yoe : Nat := (doe - doe / 1460 + doe / 36524 - doe / 146096) / 365
  let doy : Nat := doe - (365 * yoe + yoe / 4 - yoe / 100)
  let mp : Nat := (5 * doy + 2) / 153
  let d : Nat := doy - (153 * mp + 2) / 5 + 1
  let m : Nat := if mp < 10 then mp + 3 else mp - 9
  let y : Int := (yoe : Int) + era * 400
  (if m ≤ 2 then y + 1 else y, m, d)

/-- Day ordinal (days since 1970-01-01) of a civil date, standard Gregorian
algorithm; inverse of `civilFromDays` on valid civil dates. -/
def daysFromCivil (y0 : Int) (m d : Nat) : Int :=
  let y : Int := if m ≤ 2 then y0 - 1 else y0
  let era : Int := y.fdiv 400
  let yoe : Nat := (y - era * 400).toNat
  let mp : Nat := if 2 < m then m - 3 else m + 9
  let doy : Nat := (153 * mp + 2) / 5 + d - 1
  let doe : Nat := yoe * 365 + yoe / 4 - yoe / 100 + doy
  era * 146097 + (doe : Int) - 719468

/-- Zero-pad a number to two digits, as `strftime` does for `%m` and `%d`. -/
def pad2 (n : Nat) : String :=
  if n < 10 then "0" ++ toString n else toString n

/-- Zero-pad a year to four digits, as `strftime` does for `%Y`. -/
def pad4 (n : Int) : String :=
  let s := toString n
  if n < 0 then s else String.mk (List.replicate (4 - s.length) '0') ++ s

/-- `strftime("%Y-%m-%d")` applied to the civil date of a day ordinal. -/
def formatDate (z : Int) : String :=
  match civilFromDays z with
  | (y, m, d) => pad4 y ++ "-" ++ pad2 m ++ "-" ++ pad2 d

/-- `get_today_date()` from `server.py`:
`datetime.now().strftime("%Y-%m-%d")`, with `now` the current local day
ordinal. -/
def get_today_date (now : Int) : String :=
  formatDate now

/-- `get_date_n_days_ago(days)` from `server.py`:
`(datetime.now() - timedelta(days=days)).strftime("%Y-%m-%d")`. -/
def get_date_n_days_ago (now : Int) (days : Int) : String :=
  formatDate (now - days)

/-! ## JSON values and Python dict operations -/

/-- JSON values, as produced by `response.json()`.  Objects are association
lists in insertion order (Python dicts). -/
inductive Json where
  | null : Json
  | bool : Bool → Json
  | num : Int → Json
  | str : String → Json
  | arr : List Json → Json
  | obj : List (String × Json) → Json

/-- First-match association-list lookup; models `d[k]` / `k in d` on a
Python dict (whose keys are unique). -/
def lookupField {α : Type} (fs : List (String × α)) (k : String) : Option α :=
  match fs with
  | [] => none
  | (k₁, v) :: rest => if k₁ = k then some v else lookupField rest k

/-- Python `len(v)` on a JSON value: defined for sequences (lists, strings)
and dicts, a `TypeError` otherwise. -/
def pyLen : Json → Except String Nat
  | .arr xs => .ok xs.length
  | .str s => .ok s.length
  | .obj fs => .ok fs.length
  | _ => .error "TypeError: object has no len()"

/-- Python `v[-1]` on a JSON value: last element of a list, last character of
a string; a `KeyError` on a dict (JSON object keys are strings, never `-1`)
and a `TypeError` otherwise. -/
def pyLastItem : Json → Except String Json
  | .arr xs =>
    match xs.getLast? with
    | some x => .ok x
    | none => .error "IndexError: list index out of range"
  | .str s =>
    match s.data.getLast? with
    | some c => .ok (.str (String.mk [c]))
    | none => .error "IndexError: string index out of range"
  | .obj _ => .error "KeyError: -1"
  | _ => .error "TypeError: object is not subscriptable"

/-! ## Upstream Request Client -/

/-- The final HTTP response delivered by `requests.get` (after its internal
redirect handling): status code, reason phrase, and parsed JSON body. -/
structure Response where
  status : Nat
  reason : String
  body : Json

/-- Outcome of `requests.get(url, headers=..., params=..., timeout=10)`:
either a final response, or a raised `requests.exceptions.RequestException`
(connection error, timeout, ...) carrying its string representation
`str(e)`. -/
inductive TransportOutcome where
  | resp : Response → TransportOutcome
  | exn : String → TransportOutcome

/-- The network oracle: what `requests.get` does for a given url, header
list and query-parameter list. -/
def Http : Type :=
  String → List (String × String) → List (String × String) → TransportOutcome

/-- `OURA_API_BASE` from `server.py`. -/
def OURA_API_BASE : String := "https://api.ouraring.com/v2/usercollection"

/-- The `headers` dict built by `make_oura_request`. -/
def headersFor (token : String) : List (String × String) :=
  [("Authorization", "Bearer " ++ token), ("Content-Type", "application/json")]

/-- The `params` dict built by `make_oura_request`: starting from `{}`, each
date is added only when truthy (`if start_date:` / `if end_date:`), i.e. when
it is a string other than `""` rather than `None`. -/
def buildParams (start_date end_date : Option String) : List (String × String) :=
  (match start_date with
   | some s => if s = "" then [] else [("start_date", s)]
   | none => []) ++
  (match end_date with
   | some s => if s = "" then [] else [("end_date", s)]
   | none => [])

/-- `Response.raise_for_status()` from the requests library: returns the
message of the `HTTPError` it raises for status codes 400–599 (in requests'
message format), `none` otherwise. -/
def raise_for_status_msg (url : String) (r : Response) : Option String :=
  if 400 ≤ r.status ∧ r.status < 500 then
    some (toString r.status ++ " Client Error: " ++ r.reason ++ " for url: " ++ url)
  else if 500 ≤ r.status ∧ r.status < 600 then
    some (toString r.status ++ " Server Error: " ++ r.reason ++ " for url: " ++ url)
  else none

/-- `make_oura_request(endpoint, start_date, end_date)` from `server.py`:
build headers and params, GET `OURA_API_BASE/endpoint`; on a raised
`RequestException` (from the call or from `raise_for_status`) return
`{"error": str(e)}`, otherwise return the parsed JSON body. -/
def make_oura_request (http : Http) (token : String) (endpoint : String)
    (start_date : Option String := none) (end_date : Option String := none) : Json :=
  let params := buildParams start_date end_date
  let url := OURA_API_BASE ++ "/" ++ endpoint
  match http url (headersFor token) params with
  | .exn msg => .obj [("error", .str msg)]
  | .resp r =>
    match raise_for_status_msg url r with
    | some msg => .obj [("error", .str msg)]
    | none => r.body

/-! ## Operation catalog -/

/-- The post-processing shared by the five current-day tools:
`if "data" in result and len(result["data"]) > 0: return result["data"][-1]`
`return result`, for a `result` that is a dict (as `make_oura_request`'s
return annotation states).  Python exceptions (`TypeError` from `len`,
`KeyError`/`TypeError` from `[-1]`, `TypeError` from `in` on a non-dict)
surface as `.error`. -/
def postProcessLast (result : Json) : Except String Json :=
  match result with
  | .obj fs =>
    match lookupField fs "data" with
    | none => .ok result
    | some v =>
      match pyLen v with
      | .error e => .error e
      | .ok n => if 0 < n then pyLastItem v else .ok result
  | .arr xs =>
    if xs.any (fun x => match x with | .str s => s = "data" | _ => false) then
      .error "TypeError: list indices must be integers or slices, not str"
    else .ok result
  | .str s =>
    if 1 < (s.splitOn "data").length then
      .error "TypeError: string indices must be integers"
    else .ok result
  | _ => .error "TypeError: argument of type is not iterable"

/-- `get_sleep_last_night()` from `server.py`. -/
def get_sleep_last_night (http : Http) (token : String) (now : Int) : Except String Json :=
  let today := get_today_date now
  let result := make_oura_request http token "sleep" (some today) (some today)
  postProcessLast result

/-- `get_readiness_today()` from `server.py`. -/
def get_readiness_today (http : Http) (token : String) (now : Int) : Except String Json :=
  let today := get_today_date now
  let result := make_oura_request http token "daily_readiness" (some today) (some today)
  postProcessLast result

/-- `get_activity_today()` from `server.py`. -/
def get_activity_today (http : Http) (token : String) (now : Int) : Except String Json :=
  let today := get_today_date now
  let result := make_oura_request http token "daily_activity" (some today) (some today)
  postProcessLast result

/-- `get_daily_stress()` from `server.py`. -/
def get_daily_stress (http : Http) (token : String) (now : Int) : Except String Json :=
  let today := get_today_date now
  let result := make_oura_request http token "daily_stress" (some today) (some today)
  postProcessLast result

/-- `get_daily_resilience()` from `server.py`. -/
def get_daily_resilience (http : Http) (token : String) (now : Int) : Except String Json :=
  let today := get_today_date now
  let result := make_oura_request http token "daily_resilience" (some today) (some today)
  postProcessLast result

/-- `get_workouts_today()` from `server.py`: returns the raw result, with no
post-processing. -/
def get_workouts_today (http : Http) (token : String) (now : Int) : Json :=
  let today := get_today_date now
  make_oura_request http token "workout" (some today) (some today)

/-- `get_sleep_trends(days=30)` from `server.py`. -/
def get_sleep_trends (http : Http) (token : String) (now : Int) (days : Int := 30) : Json :=
  let start_date := get_date_n_days_ago now days
  let end_date := get_today_date now
  make_oura_request http token "sleep" (some start_date) (some end_date)

/-- `get_readiness_trends(days=30)` from `server.py`. -/
def get_readiness_trends (http : Http) (token : String) (now : Int) (days : Int := 30) : Json :=
  let start_date := get_date_n_days_ago now days
  let end_date := get_today_date now
  make_oura_request http token "daily_readiness" (some start_date) (some end_date)

/-- `get_activity_trends(days=30)` from `server.py`. -/
def get_activity_trends (http : Http) (token : String) (now : Int) (days : Int := 30) : Json :=
  let start_date := get_date_n_days_ago now days
  let end_date := get_today_date now
  make_oura_request http token "daily_activity" (some start_date) (some end_date)

/-- `get_stress_trends(days=30)` from `server.py`. -/
def get_stress_trends (http : Http) (token : String) (now : Int) (days : Int := 30) : Json :=
  let start_date := get_date_n_days_ago now days
  let end_date := get_today_date now
  make_oura_request http token "daily_stress" (some start_date) (some end_date)

/-- `get_resilience_trends(days=30)` from `server.py`. -/
def get_resilience_trends (http : Http) (token : String) (now : Int) (days : Int := 30) : Json :=
  let start_date := get_date_n_days_ago now days
  let end_date := get_today_date now
  make_oura_request http token "daily_resilience" (some start_date) (some end_date)

/-- `get_vo2_max_trends(days=30)` from `server.py` (note the mixed-case
endpoint path string, preserved verbatim). -/
def get_vo2_max_trends (http : Http) (token : String) (now : Int) (days : Int := 30) : Json :=
  let start_date := get_date_n_days_ago now days
  let end_date := get_today_date now
  make_oura_request http token "vO2_max" (some start_date) (some end_date)

/-! ## Process startup -/

/-- Python `int(s)` on a string: optional surrounding spaces, optional sign,
then decimal digits; `none` models the `ValueError` it raises otherwise. -/
def pyInt (s : String) : Option Int :=
  let t := s.trim
  let core := if t.startsWith "+" ∨ t.startsWith "-" then t.drop 1 else t
  if core.length > 0 ∧ core.all Char.isDigit then
    if t.startsWith "-" then some (-(core.toNat! : Int)) else some (core.toNat! : Int)
  else none

/-- Outcome of launching `python server.py` with a given environment. -/
inductive StartupResult where
  | refused : String → StartupResult
  | listening : String → Int → String → StartupResult

/-- Startup of `server.py` as a function of the process environment:
module-level code reads `OURA_ACCESS_TOKEN` and raises `ValueError` when it
is falsy (absent or empty), before the `__main__` block parses `PORT`
(default 8000) and binds the listener on `0.0.0.0`. -/
def startup (env : String → Option String) : StartupResult :=
  match env "OURA_ACCESS_TOKEN" with
  | none => .refused "OURA_ACCESS_TOKEN environment variable not set"
  | some token =>
    if token = "" then .refused "OURA_ACCESS_TOKEN environment variable not set"
    else
      match env "PORT" with
      | none => .listening "0.0.0.0" 8000 token
      | some p =>
        match pyInt p with
        | some n => .listening "0.0.0.0" n token
        | none => .refused ("invalid literal for int() with base 10: " ++ p)

/-! ## Concrete oracles and spec-side variants used in the theorems -/

/-- Modelled from the spec: the divergent "today" variant described in §4.1
(one observed code path "returns tomorrow's date (now + 1 day)"), absent from
`src/server.py`, which only has the unshifted `get_today_date`. -/
def get_today_date_shifted (now : Int) : String :=
  formatDate (now + 1)

/-- A network oracle delivering a final 300 response (a non-2xx status that
`raise_for_status` does not raise for) with a JSON body. -/
def http300 : Http := fun _ _ _ =>
  .resp ⟨300, "Multiple Choices", Json.obj [("body", Json.num 1)]⟩

/-- A network oracle delivering a 200 response whose body is
`{"data": [1, 2]}`. -/
def httpDataPair : Http := fun _ _ _ =>
  .resp ⟨200, "OK", Json.obj [("data", Json.arr [Json.num 1, Json.num 2])]⟩

/-- A network oracle on which `requests.get` raises (connection refused). -/
def httpRefused : Http := fun _ _ _ =>
  .exn "Connection refused"

/-- A network oracle delivering a final 500 response. -/
def http500 : Http := fun _ _ _ =>
  .resp ⟨500, "Internal Server Error", Json.null⟩

/-! ## Helper lemmas -/

/-- A concatenation of strings is empty exactly when both halves are. -/
theorem string_append_eq_empty_iff (s t : String) : s ++ t = "" ↔ s = "" ∧ t = "" := by
  constructor
  · intro h
    have h2 := congrArg String.data h
    simp at h2
    exact ⟨String.ext h2.1, String.ext h2.2⟩
  · rintro ⟨rfl, rfl⟩
    rfl

/-- A five-part concatenation with a non-empty second part is non-empty. -/
theorem append5_ne_empty (a b c d e : String) (hb : b ≠ "") :
    a ++ b ++ c ++ d ++ e ≠ "" := by
  intro h
  rcases (string_append_eq_empty_iff _ _).1 h with ⟨h1, _⟩
  rcases (string_append_eq_empty_iff _ _).1 h1 with ⟨h2, _⟩
  rcases (string_append_eq_empty_iff _ _).1 h2 with ⟨h3, _⟩
  rcases (string_append_eq_empty_iff _ _).1 h3 with ⟨_, hb2⟩
  exact hb hb2

/-! ## Claim theorems -/

/-- C3: for every non-negative integer `n`, `get_date_n_days_ago n` is the
calendar date exactly `n` days before the current local date, formatted
`YYYY-MM-DD` (it formats the day ordinal `n` below today's, i.e. equals
`get_today_date` evaluated `n` days earlier); in particular when the current
date is 2024-03-15 it returns 2024-02-14 for `n = 30`. -/
theorem c3_days_ago (now : Int) (n : Nat) :
    get_date_n_days_ago now n = get_today_date (now - n) ∧
    get_date_n_days_ago (daysFromCivil 2024 3 15) 30 = "2024-02-14" :=
  ⟨rfl, by decide⟩

/-- C9: `get_date_n_days_ago 0` coincides with `get_today_date`: for `n = 0`
the n-days-ago computation is the identity on the current (unshifted) local
calendar date. -/
theorem c9_zero_days_ago (now : Int) :
    get_date_n_days_ago now 0 = get_today_date now := by
  unfold get_date_n_days_ago get_today_date
  rw [Int.sub_zero]

/-- C7: `get_today_date` returns the current local calendar date formatted
`YYYY-MM-DD`, with no forward shift: it formats the current day ordinal
itself, returns "2024-03-15" on 2024-03-15, and differs there from the
spec-described now-plus-one-day variant. -/
theorem c7_today_unshifted (now : Int) :
    get_today_date now = formatDate now ∧
    get_today_date (daysFromCivil 2024 3 15) = "2024-03-15" ∧
    get_today_date (daysFromCivil 2024 3 15)
      ≠ get_today_date_shifted (daysFromCivil 2024 3 15) :=
  ⟨rfl, by decide, by decide⟩

/-- C5: `get_workouts_today` calls the request client with
`start_date = end_date =` today's date and returns the raw result unmodified;
in particular on a `{"data": [1, 2]}` body it returns the whole body, not the
last element of the data sequence. -/
theorem c5_workouts_raw (http : Http) (token : String) (now : Int) :
    get_workouts_today http token now
      = make_oura_request http token "workout"
          (some (get_today_date now)) (some (get_today_date now)) ∧
    get_workouts_today httpDataPair token now
      = Json.obj [("data", Json.arr [Json.num 1, Json.num 2])] :=
  ⟨rfl, rfl⟩

/-- C6: every trend operation calls the request client with
`start_date = get_date_n_days_ago days` and `end_date = get_today_date`, and
returns the raw result unmodified; the `days` parameter defaults to 30. -/
theorem c6_trend_ops (http : Http) (token : String) (now : Int) (days : Int) :
    (get_sleep_trends http token now days
      = make_oura_request http token "sleep"
          (some (get_date_n_days_ago now days)) (some (get_today_date now))) ∧
    (get_readiness_trends http token now days
      = make_oura_request http token "daily_readiness"
          (some (get_date_n_days_ago now days)) (some (get_today_date now))) ∧
    (get_activity_trends http token now days
      = make_oura_request http token "daily_activity"
          (some (get_date_n_days_ago now days)) (some (get_today_date now))) ∧
    (get_stress_trends http token now days
      = make_oura_request http token "daily_stress"
          (some (get_date_n_days_ago now days)) (some (get_today_date now))) ∧
    (get_resilience_trends http token now days
      = make_oura_request http token "daily_resilience"
          (some (get_date_n_days_ago now days)) (some (get_today_date now))) ∧
    (get_vo2_max_trends http token now days
      = make_oura_request http token "vO2_max"
          (some (get_date_n_days_ago now days)) (some (get_today_date now))) ∧
    (get_sleep_trends http token now = get_sleep_trends http token now 30) ∧
    (get_readiness_trends http token now = get_readiness_trends http token now 30) ∧
    (get_activity_trends http token now = get_activity_trends http token now 30) ∧
    (get_stress_trends http token now = get_stress_trends http token now 30) ∧
    (get_resilience_trends http token now = get_resilience_trends http token now 30) ∧
    (get_vo2_max_trends http token now = get_vo2_max_trends http token now 30) :=
  ⟨rfl, rfl, rfl, rfl, rfl, rfl, rfl, rfl, rfl, rfl, rfl, rfl⟩

/-- C1 (counterexample): the claim is false for the non-2xx status 300:
`raise_for_status` raises only for 4xx/5xx, so `make_oura_request` returns
the 300 response's body verbatim, which is not an `{"error": ...}`
mapping. -/
theorem c1_counterexample :
    make_oura_request http300 "token" "sleep" none none
      = Json.obj [("body", Json.num 1)] ∧
    ¬ ∃ msg : String, make_oura_request http300 "token" "sleep" none none
      = Json.obj [("error", Json.str msg)] := by
  refine ⟨rfl, ?_⟩
  rintro ⟨msg, h⟩
  have h0 : Json.obj [("body", Json.num 1)] = Json.obj [("error", Json.str msg)] := h
  injection h0 with h1
  injection h1 with h2 _
  injection h2 with h3 _
  exact absurd h3 (by decide)

/-- C1 (amended): for every transport failure — a raised connection error or
timeout whose string representation is non-empty, or a final 4xx/5xx upstream
status — `make_oura_request` returns a mapping containing exactly an "error"
key whose value is a non-empty string, and never propagates the fault (it is
a total function into JSON values). -/
theorem c1_transport_failure_error_shape (http : Http) (token endpoint : String)
    (sd ed : Option String) :
    (∀ msg, http (OURA_API_BASE ++ "/" ++ endpoint) (headersFor token) (buildParams sd ed)
        = TransportOutcome.exn msg → msg ≠ "" →
      make_oura_request http token endpoint sd ed = Json.obj [("error", Json.str msg)]
        ∧ msg ≠ "") ∧
    (∀ r, http (OURA_API_BASE ++ "/" ++ endpoint) (headersFor token) (buildParams sd ed)
        = TransportOutcome.resp r → 400 ≤ r.status → r.status < 600 →
      ∃ msg, make_oura_request http token endpoint sd ed = Json.obj [("error", Json.str msg)]
        ∧ msg ≠ "") := by
  constructor
  · intro msg hx hne
    refine ⟨?_, hne⟩
    simp only [make_oura_request]
    rw [hx]
  · intro r hr h4 h6
    have key : make_oura_request http token endpoint sd ed
        = match raise_for_status_msg (OURA_API_BASE ++ "/" ++ endpoint) r with
          | some msg => Json.obj [("error", Json.str msg)]
          | none => r.body := by
      simp only [make_oura_request]
      rw [hr]
    rw [key]
    unfold raise_for_status_msg
    by_cases hc : 400 ≤ r.status ∧ r.status < 500
    · rw [if_pos hc]
      exact ⟨_, rfl, append5_ne_empty _ _ _ _ _ (by decide)⟩
    · have hc2 : 500 ≤ r.status ∧ r.status < 600 := by omega
      rw [if_neg hc, if_pos hc2]
      exact ⟨_, rfl, append5_ne_empty _ _ _ _ _ (by decide)⟩

/-- C1 (witness): a connection-refused transport failure and a 500 status
both produce the error mapping. -/
theorem c1_witness :
    make_oura_request httpRefused "t" "sleep" none none
      = Json.obj [("error", Json.str "Connection refused")] ∧
    ∃ msg, make_oura_request http500 "t" "sleep" none none
      = Json.obj [("error", Json.str msg)] ∧ msg ≠ "" :=
  ⟨((c1_transport_failure_error_shape httpRefused "t" "sleep" none none).1
      "Connection refused" rfl (by decide)).1,
   (c1_transport_failure_error_shape http500 "t" "sleep" none none).2
      ⟨500, "Internal Server Error", Json.null⟩ rfl (by decide) (by decide)⟩

/-- C2 (counterexample): the claim is false for a present-but-empty
`start_date`: the input `some ""` is present (not absent), yet the
`start_date` query parameter is omitted rather than included verbatim,
because `if start_date:` tests Python truthiness. -/
theorem c2_counterexample :
    (some "" ≠ (none : Option String)) ∧
    buildParams (some "") (some "2024-01-02") = [("end_date", "2024-01-02")] ∧
    lookupField (buildParams (some "") (some "2024-01-02")) "start_date" = none := by
  refine ⟨?_, rfl, rfl⟩
  intro h
  exact Option.noConfusion h

/-- C2 (amended): `make_oura_request`'s query-parameter dict (`buildParams`)
omits the `start_date` (resp. `end_date`) parameter entirely when the
corresponding input is absent, and includes it verbatim as an unmodified
string when it is present and non-empty (an empty string is treated as
absent). -/
theorem c2_params_verbatim (sd ed : Option String) :
    (sd = none → lookupField (buildParams sd ed) "start_date" = none) ∧
    (ed = none → lookupField (buildParams sd ed) "end_date" = none) ∧
    (∀ s, sd = some s → s ≠ "" →
      lookupField (buildParams sd ed) "start_date" = some s) ∧
    (∀ t, ed = some t → t ≠ "" →
      lookupField (buildParams sd ed) "end_date" = some t) := by
  refine ⟨?_, ?_, ?_, ?_⟩
  · rintro rfl
    rcases ed with _ | t
    · rfl
    · by_cases ht : t = ""
      · subst ht; rfl
      · simp only [buildParams]
        rw [if_neg ht]
        rfl
  · rintro rfl
    rcases sd with _ | s
    · rfl
    · by_cases hs : s = ""
      · subst hs; rfl
      · simp only [buildParams]
        rw [if_neg hs]
        rfl
  · rintro s rfl hs
    rcases ed with _ | t
    · simp only [buildParams]
      rw [if_neg hs]
      rfl
    · by_cases ht : t = ""
      · subst ht
        simp only [buildParams]
        rw [if_neg hs]
        rfl
      · simp only [buildParams]
        rw [if_neg hs, if_neg ht]
        rfl
  · rintro t rfl ht
    rcases sd with _ | s
    · simp only [buildParams]
      rw [if_neg ht]
      rfl
    · by_cases hs : s = ""
      · subst hs
        simp only [buildParams]
        rw [if_neg ht]
        rfl
      · simp only [buildParams]
        rw [if_neg hs, if_neg ht]
        rfl

/-- C2 (witness): with a present, non-empty `start_date` and an absent
`end_date`, the one parameter is sent verbatim and the other is omitted. -/
theorem c2_witness :
    lookupField (buildParams (some "2024-01-01") none) "start_date" = some "2024-01-01" ∧
    lookupField (buildParams (some "2024-01-01") none) "end_date" = none :=
  ⟨(c2_params_verbatim (some "2024-01-01") none).2.2.1 "2024-01-01" rfl (by decide),
   (c2_params_verbatim (some "2024-01-01") none).2.1 rfl⟩

/-- C10: an empty-string `start_date` or `end_date` is treated exactly like
an absent one (the parameter is omitted), and no query parameter ever has an
empty value. -/
theorem c10_empty_string_params :
    (∀ ed, buildParams (some "") ed = buildParams none ed) ∧
    (∀ sd, buildParams sd (some "") = buildParams sd none) ∧
    (∀ sd ed kv, kv ∈ buildParams sd ed → kv.2 ≠ "") := by
  refine ⟨fun ed => rfl, fun sd => rfl, ?_⟩
  intro sd ed kv hkv
  rcases sd with _ | s <;> rcases ed with _ | t <;>
    simp only [buildParams] at hkv <;>
    rcases List.mem_append.1 hkv with h | h
  all_goals simp at h
  all_goals rw [h.2]
  all_goals exact h.1

/-- C10 (witness): a present, non-empty date is sent with its non-empty
value. -/
theorem c10_witness :
    ("start_date", "2024-01-01") ∈ buildParams (some "2024-01-01") none ∧
    ("2024-01-01" : String) ≠ "" :=
  ⟨by decide,
   c10_empty_string_params.2.2 (some "2024-01-01") none
     ("start_date", "2024-01-01") (by decide)⟩

/-- C8: if `OURA_ACCESS_TOKEN` is absent from the environment, startup is
refused (the module-level `ValueError`) and the listener is never bound: no
operation is ever served without a credential. -/
theorem c8_fail_fast (env : String → Option String)
    (h : env "OURA_ACCESS_TOKEN" = none) :
    startup env = StartupResult.refused "OURA_ACCESS_TOKEN environment variable not set" ∧
    ∀ host port token, startup env ≠ StartupResult.listening host port token := by
  have h1 : startup env
      = StartupResult.refused "OURA_ACCESS_TOKEN environment variable not set" := by
    unfold startup
    rw [h]
  refine ⟨h1, ?_⟩
  intro host port token hc
  rw [h1] at hc
  exact StartupResult.noConfusion hc

/-- C8 (witness): startup with an empty environment is refused. -/
theorem c8_witness :
    startup (fun _ => none)
      = StartupResult.refused "OURA_ACCESS_TOKEN environment variable not set" :=
  (c8_fail_fast (fun _ => none) rfl).1

/-- C4: each of the five current-day operations (sleep, readiness, activity,
stress, resilience) calls the request client with
`start_date = end_date = get_today_date` and post-processes its result; the
post-processing returns the last element when the result carries a non-empty
`"data"` sequence, and returns the result unmodified when `"data"` is absent
(which covers the `{"error": ...}` shape) or is an empty sequence. -/
theorem c4_current_day_ops (http : Http) (token : String) (now : Int) :
    (get_sleep_last_night http token now
      = postProcessLast (make_oura_request http token "sleep"
          (some (get_today_date now)) (some (get_today_date now)))) ∧
    (get_readiness_today http token now
      = postProcessLast (make_oura_request http token "daily_readiness"
          (some (get_today_date now)) (some (get_today_date now)))) ∧
    (get_activity_today http token now
      = postProcessLast (make_oura_request http token "daily_activity"
          (some (get_today_date now)) (some (get_today_date now)))) ∧
    (get_daily_stress http token now
      = postProcessLast (make_oura_request http token "daily_stress"
          (some (get_today_date now)) (some (get_today_date now)))) ∧
    (get_daily_resilience http token now
      = postProcessLast (make_oura_request http token "daily_resilience"
          (some (get_today_date now)) (some (get_today_date now)))) ∧
    (∀ (fs : List (String × Json)) (xs : List Json) (x : Json),
      lookupField fs "data" = some (Json.arr xs) → xs.getLast? = some x →
      postProcessLast (Json.obj fs) = Except.ok x) ∧
    (∀ fs : List (String × Json), lookupField fs "data" = none →
      postProcessLast (Json.obj fs) = Except.ok (Json.obj fs)) ∧
    (∀ fs : List (String × Json), lookupField fs "data" = some (Json.arr []) →
      postProcessLast (Json.obj fs) = Except.ok (Json.obj fs)) := by
  refine ⟨rfl, rfl, rfl, rfl, rfl, ?_, ?_, ?_⟩
  · intro fs xs x h hl
    cases xs with
    | nil => simp at hl
    | cons a as =>
      simp only [postProcessLast, h, pyLen]
      rw [if_pos (by simp)]
      simp only [pyLastItem, hl]
  · intro fs h
    simp only [postProcessLast, h]
  · intro fs h
    simp only [postProcessLast, h, pyLen, List.length_nil]
    rw [if_neg (by omega)]

/-- C4 (witness): on the upstream response `{"data": [{"id": 1}, {"id": 2}]}`
the post-processing returns `{"id": 2}`, and on `{"data": []}` it returns the
result unmodified. -/
theorem c4_witness :
    postProcessLast (Json.obj [("data",
        Json.arr [Json.obj [("id", Json.num 1)], Json.obj [("id", Json.num 2)]])])
      = Except.ok (Json.obj [("id", Json.num 2)]) ∧
    postProcessLast (Json.obj [("data", Json.arr [])])
      = Except.ok (Json.obj [("data", Json.arr [])]) :=
  ⟨(c4_current_day_ops httpRefused "t" 0).2.2.2.2.2.1 _ _ _ rfl rfl,
   (c4_current_day_ops httpRefused "t" 0).2.2.2.2.2.2.2 _ rfl⟩

end Oura
